import Mathlib

/-!
Verification development for the roz ingestion pipeline.

Shallow embedding of the pipeline stages found in the repository:
`roz/triplet_matcher.py` (the matcher loop), `roz/ingest.py` (the ingest
validator loop), `roz_scripts/utils/utils.py` (the record-API client
helpers and the object-store fetch), and
`roz_scripts/pathsafe/pathsafe_ingest.py` (the pathsafe project
validator).  Python dicts that preserve insertion order are embedded as
association lists; wall-clock reads (`time.time_ns`) are not modelled
because no verified property depends on them.
-/

namespace RozSpec

/-! ## Shared string helpers

`str.split(sep)` and `str.replace(pat, "")` are embedded on the character
list of the string so that concrete runs reduce inside the kernel. -/

/-- Python `s.split(sep)` on the character list: always returns at least
one (possibly empty) group. -/
def splitCharsAux (sep : Char) : List Char → List (List Char)
  | [] => [[]]
  | c :: rest =>
      let r := splitCharsAux sep rest
      if c = sep then [] :: r
      else
        match r with
        | g :: gs => (c :: g) :: gs
        | [] => [[c]]

/-- Python `s.split(sep)` for a one-character separator. -/
def splitOnChar (sep : Char) (s : String) : List String :=
  (splitCharsAux sep s.toList).map fun g => String.mk g

/-- Fuel-indexed worker for `removeSubstr`; the fuel is an upper bound on
the number of characters still to inspect. -/
def removeSubstrAux (pat : List Char) : Nat → List Char → List Char
  | 0, cs => cs
  | _ + 1, [] => []
  | fuel + 1, c :: rest =>
      if pat ≠ [] && pat.isPrefixOf (c :: rest) then
        removeSubstrAux pat fuel ((c :: rest).drop pat.length)
      else c :: removeSubstrAux pat fuel rest

/-- Python `s.replace(pat, "")`: delete every non-overlapping occurrence
of `pat`, scanning left to right. -/
def removeSubstr (pat s : String) : String :=
  String.mk (removeSubstrAux pat.toList (s.toList.length + 1) s.toList)

/-! ## Shared association-list operations (Python dict semantics) -/

/-- Look up a key in an insertion-ordered association list, as a Python
dict subscript that may miss. -/
def alistLookup {κ α : Type} [DecidableEq κ] (m : List (κ × α)) (k : κ) :
    Option α :=
  match m with
  | [] => none
  | (k2, v) :: rest => if k2 = k then some v else alistLookup rest k

/-- Python `d[k] = v` on an insertion-ordered dict: overwrite in place when
the key exists, append at the end otherwise. -/
def alistInsert {κ α : Type} [DecidableEq κ] (m : List (κ × α)) (k : κ)
    (v : α) : List (κ × α) :=
  match m with
  | [] => [(k, v)]
  | (k2, w) :: rest =>
      if k2 = k then (k2, v) :: rest else (k2, w) :: alistInsert rest k v

/-- Python `d.setdefault(k, []).append(msg)` on a field-to-messages map. -/
def appendFieldMsg (m : List (String × List String)) (k : String)
    (msg : String) : List (String × List String) :=
  match alistLookup m k with
  | some msgs => alistInsert m k (msgs ++ [msg])
  | none => m ++ [(k, [msg])]

/-- Merging a response messages map into a payload error map: per field,
extend the existing list or set it (`roz/ingest.py` lines 171-176 and
`utils.py` lines 285-288). -/
def mergeFieldMsgs (m : List (String × List String))
    (msgs : List (String × List String)) : List (String × List String) :=
  msgs.foldl
    (fun acc fm =>
      match alistLookup acc fm.1 with
      | some existing => alistInsert acc fm.1 (existing ++ fm.2)
      | none => acc ++ [(fm.1, fm.2)])
    m

/-! ## Matcher (`roz/triplet_matcher.py`)

The matcher watches a directory; each outer iteration of its `while True`
loop receives the set of files not seen before (`directory_scanner`),
folds them into `unmatched_artifacts`, and then walks that dict emitting
a payload for every complete triplet that is not an identical copy of a
previously matched one.  A file event is embedded as the pair of the
path the scanner saw and the md5 hash `hash_file` computed for it. -/

/-- One observed file: the full path and the md5 hash of its content. -/
structure FileEntry where
  path : String
  hash : String
deriving DecidableEq, Repr

/-- Working record for one artifact: map from file type (the third
dot-component of the name) to the observed file. -/
abbrev Triplet := List (String × FileEntry)

/-- Hashes of a previously matched triplet, keyed implicitly as
csv / fasta / bam (`get_already_matched_triplets`). -/
structure TripletHashes where
  csv : String
  fasta : String
  bam : String
deriving DecidableEq, Repr

/-- A match message as built by `generate_payload` (spec version 1).  The
`match_timestamp` wall-clock read is not modelled. -/
structure MatchPayload where
  payload_version : Nat
  uploader : String
  artifact : String
  files : List (String × FileEntry)
deriving DecidableEq, Repr

/-- `uploader_code = "BIRM"` (`triplet_matcher.py` line 89). -/
def uploaderCode : String := "BIRM"

/-- `os.path.basename`: the part of the path after the last slash. -/
def basename (path : String) : String :=
  (splitOnChar '/' path).getLastD ""

/-- Filename handling of the matching loop (lines 99-107): the basename
must split on dots into exactly three components; the artifact key is the
join of the first two and the file type is the third.  Names with any
other number of components are ignored.  (A third component outside
csv / fasta / bam is logged but — the loop body has no `continue` there —
still processed.) -/
def parseFname (fname : String) : Option (String × String) :=
  match splitOnChar '.' fname with
  | [a, b, c] => some (a ++ "." ++ b, c)
  | _ => none

/-- Body of `for new_file in new_files` (lines 99-113): parse the name and
record the file in the working record for its artifact key. -/
def processFile (unmatched : List (String × Triplet)) (f : FileEntry) :
    List (String × Triplet) :=
  match parseFname (basename f.path) with
  | none => unmatched
  | some (artifact, ftype) =>
      match alistLookup unmatched artifact with
      | some trip => alistInsert unmatched artifact (alistInsert trip ftype f)
      | none => unmatched ++ [(artifact, [(ftype, f)])]

/-- `set(triplet.keys()) == set(["fasta", "csv", "bam"])` (line 119). -/
def tripletComplete (trip : Triplet) : Bool :=
  (["fasta", "csv", "bam"].all fun e => trip.any fun p => p.1 = e) &&
    (trip.all fun p => ["fasta", "csv", "bam"].contains p.1)

/-- Lines 120-125: the artifact was matched before and every file type
carries the same hash as the previously matched triplet. -/
def identicalToPrevious (prev : List (String × TripletHashes))
    (artifact : String) (trip : Triplet) : Bool :=
  match alistLookup prev artifact with
  | none => false
  | some h =>
      ((alistLookup trip "fasta").map FileEntry.hash == some h.fasta) &&
        ((alistLookup trip "csv").map FileEntry.hash == some h.csv) &&
        ((alistLookup trip "bam").map FileEntry.hash == some h.bam)

/-- `generate_payload` (lines 63-71) for spec version 1: the files dict
holds exactly the csv, fasta and bam entries of the triplet.  The Python
subscripts would raise on a missing key, hence the `Option`. -/
def generate_payload (artifact : String) (trip : Triplet)
    (uploader : String) : Option MatchPayload :=
  match alistLookup trip "csv", alistLookup trip "fasta",
      alistLookup trip "bam" with
  | some c, some f, some b =>
      some { payload_version := 1, uploader := uploader, artifact := artifact,
             files := [("csv", c), ("fasta", f), ("bam", b)] }
  | _, _, _ => none

/-- The matching pass over `unmatched_artifacts.items()` (lines 115-130):
returns the payloads put on the producer queue and the `to_delete` list.
Dispatching neither records the emitted hashes in `previously_matched`
nor puts the artifact on `to_delete`; only suppressed artifacts are
deleted. -/
def matchPass (prev : List (String × TripletHashes)) :
    List (String × Triplet) → List MatchPayload × List String
  | [] => ([], [])
  | p :: rest =>
      let r := matchPass prev rest
      if tripletComplete p.2 then
        if identicalToPrevious prev p.1 p.2 then (r.1, p.1 :: r.2)
        else
          match generate_payload p.1 p.2 uploaderCode with
          | some pl => (pl :: r.1, r.2)
          | none => r
      else r

/-- Full matcher state across outer loop iterations. -/
structure MatcherState where
  existing : List String
  unmatched : List (String × Triplet)
  prev : List (String × TripletHashes)
deriving Repr

/-- One iteration of the outer `while True` loop (lines 91-136): filter
out already-seen paths, extend `existing_files`, and if anything is new,
fold the files in and run the matching pass, deleting the `to_delete`
artifacts afterwards.  `previously_matched` is never updated here. -/
def scanStep (st : MatcherState) (scan : List FileEntry) :
    MatcherState × List MatchPayload :=
  let newFiles := scan.filter fun f => !(st.existing.contains f.path)
  let existing2 := st.existing ++ newFiles.map FileEntry.path
  if newFiles.isEmpty then
    ({ st with existing := existing2 }, [])
  else
    let unmatched2 := newFiles.foldl processFile st.unmatched
    let mp := matchPass st.prev unmatched2
    let unmatched3 := unmatched2.filter fun p => !((mp.2).contains p.1)
    ({ existing := existing2, unmatched := unmatched3, prev := st.prev },
      mp.1)

/-- Iterate the outer loop over a sequence of scans, collecting every
emitted match payload in order. -/
def matcherRunAux (st : MatcherState) :
    List (List FileEntry) → List MatchPayload
  | [] => []
  | scan :: rest =>
      let s := scanStep st scan
      s.2 ++ matcherRunAux s.1 rest

/-- Run the matcher over a sequence of scans starting from the
`previously_matched` dict rebuilt at startup. -/
def matcherRun (prev0 : List (String × TripletHashes))
    (scans : List (List FileEntry)) : List MatchPayload :=
  matcherRunAux ⟨[], [], prev0⟩ scans

/-! ## Ingest validator (`roz/ingest.py`)

The `main` loop receives one matched message per iteration, starts from a
deep copy of `ingest_payload_template`, performs a test create against
the record API from the metadata CSV, annotates the fresh payload and
either sends it, drops it with a `continue`, or dies on an uncaught
exception.  The two external effects of an iteration — the outcome of
`client.csv_create` (a generator of responses, or an exception) and the
first row of the metadata CSV — are passed in as an environment. -/

/-- One response yielded by the record-API csv create generator.  The
`data_cid` field models `response.json()["data"]["cid"]`, with `""` for a
falsy / absent cid; `messages` models `response.json()["messages"]`. -/
structure OnyxResponse where
  status_code : Nat
  messages : List (String × List String)
  data_cid : String
deriving DecidableEq, Repr

/-- Outcome of the `client.csv_create` call in `roz/ingest.py` lines
87-100: either the generator of responses or a client exception. -/
inductive CsvCreateCall where
  | clientExc (msg : String)
  | responses (rs : List OnyxResponse)
deriving DecidableEq, Repr

/-- The fields of a match message that the ingest loop reads. -/
structure MatchedMessage where
  artifact : String
  sample_id : String
  run_name : String
  project : String
  platform : String
  site : String
  files : List (String × FileEntry)
  local_paths : List (String × String)
deriving DecidableEq, Repr

/-- Environment of one loop iteration: the csv create outcome, the first
metadata CSV row (`none` when opening or reading the file raises), and
the `time.time_ns()` reading taken when the payload is filled. -/
structure IngestEnv where
  csvCreate : CsvCreateCall
  csvRow : Option (List (String × String))
  now : Nat
deriving DecidableEq, Repr

/-- The payload built by the ingest loop, one field per entry of
`ingest_payload_template` (lines 47-68).  Template strings start empty;
the Python `False` placeholders of `mid`, `ingest_timestamp` and the
status codes are modelled as `0` / `none`. -/
structure IngestPayload where
  mid : Nat
  artifact : String
  sample_id : String
  run_name : String
  project : String
  platform : String
  ingest_timestamp : Option Nat
  cid : Bool
  site : String
  created : Bool
  ingested : Bool
  files : List (String × FileEntry)
  local_paths : List (String × String)
  onyx_test_status_code : Option Nat
  onyx_test_create_errors : List (String × List String)
  onyx_test_create_status : Bool
  onyx_status_code : Option Nat
  onyx_errors : List (String × List String)
  onyx_create_status : Bool
  ingest_errors : List (String × List String)
deriving DecidableEq, Repr

/-- `ingest_payload_template` with every field at its default. -/
def ingestPayloadTemplate : IngestPayload where
  mid := 0
  artifact := ""
  sample_id := ""
  run_name := ""
  project := ""
  platform := ""
  ingest_timestamp := none
  cid := false
  site := ""
  created := false
  ingested := false
  files := []
  local_paths := []
  onyx_test_status_code := none
  onyx_test_create_errors := []
  onyx_test_create_status := false
  onyx_status_code := none
  onyx_errors := []
  onyx_create_status := false
  ingest_errors := []

/-- `handle_status_code` (`roz/ingest.py` lines 13-21). -/
def handle_status_code (status_code : Nat) : Bool × String :=
  if status_code = 422 then (false, "validation_failure")
  else if status_code = 403 then (false, "perm_failure")
  else if status_code = 201 then (true, "success")
  else (false, "unknown")

/-- Result of one loop iteration: a payload sent downstream, a silent
drop (`continue` before the send), or an uncaught exception. -/
inductive IngestOutcome where
  | sent (p : IngestPayload)
  | dropped
  | crashed
deriving DecidableEq, Repr

/-- Lines 201-211: fill the identity fields of the fresh payload from the
matched message and send it.  The onyx test fields hold whatever the
earlier branches set (defaults when they were skipped). -/
def fillAndSend (tag : Nat) (m : MatchedMessage) (now : Nat)
    (errs : List (String × List String)) (status : Bool)
    (code : Option Nat) : IngestPayload :=
  { ingestPayloadTemplate with
      mid := tag
      artifact := m.artifact
      sample_id := m.sample_id
      run_name := m.run_name
      project := m.project
      platform := m.platform
      ingest_timestamp := some now
      site := m.site
      files := m.files
      local_paths := m.local_paths
      onyx_test_create_errors := errs
      onyx_test_create_status := status
      onyx_test_status_code := code }

/-- Status-code handling (lines 161-199).  With an empty response
generator `to_test` is still the boolean `False`, so reading
`.status_code` raises.  An unknown status or a permissions failure is
dropped; a success whose response carries a truthy cid is dropped; every
other path falls through to the send. -/
def ingestStatusStep (tag : Nat) (m : MatchedMessage) (now : Nat)
    (errs : List (String × List String)) (rs : List OnyxResponse) :
    IngestOutcome :=
  match rs.head? with
  | none => .crashed
  | some r =>
      let sr := handle_status_code r.status_code
      let errs2 := if r.messages.isEmpty then errs
        else mergeFieldMsgs errs r.messages
      if !sr.1 then
        if sr.2 = "unknown" then .dropped
        else if sr.2 = "perm_failure" then .dropped
        else .sent (fillAndSend tag m now errs2 sr.1 (some r.status_code))
      else if sr.2 = "success" then
        if r.data_cid ≠ "" then .dropped
        else .sent (fillAndSend tag m now errs2 sr.1 (some r.status_code))
      else .sent (fillAndSend tag m now errs2 sr.1 (some r.status_code))

/-- The metadata CSV portion (lines 116-149): compare the row fields to
the message, record mismatches, then run the dead early-send guard
`if not all(name_matches.keys())` — `all` over the two key strings, which
are truthy, so the guard never fires — and continue with the status
handling.  A missing column raises a KeyError. -/
def ingestCsvStep (tag : Nat) (m : MatchedMessage) (now : Nat)
    (row : List (String × String)) (rs : List OnyxResponse) :
    IngestOutcome :=
  match alistLookup row "sample_id", alistLookup row "run_name" with
  | some sv, some rv =>
      let nameMatches : List (String × Bool) :=
        [("sample_id", sv == m.sample_id), ("run_name", rv == m.run_name)]
      let errs := nameMatches.foldl
        (fun acc kv =>
          if !kv.2 then appendFieldMsg acc kv.1 "Field does not match filename"
          else acc)
        []
      if !((nameMatches.map Prod.fst).all fun k => !(k == "")) then
        .sent (fillAndSend tag m now errs false none)
      else ingestStatusStep tag m now errs rs
  | _, _ => .crashed

/-- The body of the ingest `while True` loop (lines 70-211) for one
message, given its delivery tag.  A client exception in `csv_create` is
caught and dropped; two or more generator items flag a multiline CSV,
which skips the metadata read and the status handling but is still sent;
otherwise the metadata row is read (an unreadable or empty CSV raises
uncaught) and the status handling decides. -/
def ingestStep (tag : Nat) (m : MatchedMessage) (env : IngestEnv) :
    IngestOutcome :=
  match env.csvCreate with
  | .clientExc _ => .dropped
  | .responses rs =>
      if rs.length > 1 then
        .sent (fillAndSend tag m env.now
          (appendFieldMsg [] "metadata_csv"
            "Multiline metadata CSVs are not permitted")
          false none)
      else
        match env.csvRow with
        | none => .crashed
        | some row => ingestCsvStep tag m env.now row rs

/-- The ingest loop over a stream of messages: each iteration starts from
a fresh deep copy of the template and no state crosses iterations. -/
def ingestLoop (inputs : List (Nat × MatchedMessage × IngestEnv)) :
    List IngestOutcome :=
  inputs.foldl (fun acc t => acc ++ [ingestStep t.1 t.2.1 t.2.2]) []

/-- Number of messages published for one input message. -/
def sentCount : IngestOutcome → Nat
  | .sent _ => 1
  | _ => 0

/-- Characterisation of the inputs for which the loop body reaches its
send: a multiline metadata CSV, or a readable single-row metadata CSV
with both name columns present and a test create response whose status
is 422, or 201 without an assigned cid. -/
def ingestSendsIff (env : IngestEnv) : Bool :=
  match env.csvCreate with
  | .clientExc _ => false
  | .responses rs =>
      if rs.length > 1 then true
      else
        match env.csvRow, rs.head? with
        | some row, some r =>
            (alistLookup row "sample_id").isSome &&
              (alistLookup row "run_name").isSome &&
              (r.status_code == 422 ||
                (r.status_code == 201 && r.data_cid == ""))
        | _, _ => false

/-! ## Record-API client helpers (`roz_scripts/utils/utils.py`)

The helpers all act on a payload dict and return a tuple
`(flag, alert, payload)`.  The payload is embedded as a structure holding
the fields these helpers read or write; Python error maps that may be
absent are embedded as always-present maps defaulting to empty, on which
`setdefault` is the identity.  Each helper additionally reports the list
of `time.sleep` durations it performed, so that retry timing is
statable. -/

/-- A file reference inside a validation payload: object URI and the etag
recorded at match time. -/
structure FileRef where
  uri : String
  etag : String
deriving DecidableEq, Repr

/-- The validation payload fields used by the utils helpers. -/
structure UtilsPayload where
  artifact : String
  uuid : String
  project : String
  site : String
  sample_id : String
  run_id : String
  climb_id : String
  climb_sample_id : String
  climb_run_id : String
  files : List (String × FileRef)
  onyx_test_create_errors : List (String × List String)
  onyx_create_errors : List (String × List String)
  onyx_errors : List (String × List String)
  onyx_update_errors : List (String × List String)
deriving DecidableEq, Repr

/-- The character class `[A-Za-z0-9_-]` of the policy regex. -/
def allowedChar (c : Char) : Bool :=
  ('A' ≤ c && c ≤ 'Z') || ('a' ≤ c && c ≤ 'z') ||
    ('0' ≤ c && c ≤ '9') || c = '_' || c = '-'

/-- `re.compile(r"^[A-Za-z0-9_-]*$").match(s)` succeeds: every character
of `s` is in the class; the star accepts the empty string. -/
def matchesCharClassStar (s : String) : Bool :=
  s.toList.all allowedChar

/-- The `sample_id` character-class error message. -/
def sampleIdCharMsg : String :=
  "sample_id contains invalid characters, must be alphanumeric and contain only hyphens and underscores"

/-- The `run_id` character-class error message. -/
def runIdCharMsg : String :=
  "run_id contains invalid characters, must be alphanumeric and contain only hyphens and underscores"

/-- `valid_character_checks` (`utils.py` lines 418-449): check both ids
against the pattern, record one error per violating field, and fail when
either misses.  The alert flag is always `False`. -/
def valid_character_checks (payload : UtilsPayload) :
    Bool × Bool × UtilsPayload :=
  let sample_id_match := matchesCharClassStar payload.sample_id
  let run_id_match := matchesCharClassStar payload.run_id
  let p1 :=
    if !sample_id_match then
      let e1 := appendFieldMsg payload.onyx_test_create_errors "sample_id"
        sampleIdCharMsg
      { payload with onyx_test_create_errors := e1 }
    else payload
  let p2 :=
    if !run_id_match then
      let e2 := appendFieldMsg p1.onyx_test_create_errors "run_id"
        runIdCharMsg
      { p1 with onyx_test_create_errors := e2 }
    else p1
  if !sample_id_match || !run_id_match then (false, false, p2)
  else (true, false, p2)

/-- An object held by the object store: its etag as the store reports it
(possibly quoted) and its decoded body. -/
structure S3Object where
  etag : String
  body : String
deriving DecidableEq, Repr

/-- The object store, keyed by (bucket, key). -/
abbrev S3Store := List ((String × String) × S3Object)

/-- Failures of the object fetch: the explicit `EtagMismatchError`, or
any other exception (missing object, malformed URI). -/
inductive S3FetchError where
  | etagMismatch
  | otherError
deriving DecidableEq, Repr

/-- URI handling of `s3_to_fh` (lines 1059-1061): strip the scheme, the
bucket is the part before the first slash and the key everything after
it; `split("/", 1)[1]` raises when there is no slash. -/
def parseS3Uri (s3_uri : String) : Option (String × String) :=
  let stripped := removeSubstr "s3://" s3_uri
  match splitOnChar '/' stripped with
  | [] => none
  | [_] => none
  | b :: rest => some (b, String.intercalate "/" rest)

/-- `file_obj["ETag"].replace('"', "")` (line 1073). -/
def stripQuotes (s : String) : String :=
  removeSubstr "\"" s

/-- `s3_to_fh` (`utils.py` lines 1044-1078): fetch the object and raise
`EtagMismatchError` when the stored etag, quotes stripped, differs from
the etag recorded in the match message; otherwise return the body. -/
def s3_to_fh (store : S3Store) (s3_uri : String) (eTag : String) :
    Except S3FetchError String :=
  match parseS3Uri s3_uri with
  | none => .error .otherError
  | some bk =>
      match alistLookup store bk with
      | none => .error .otherError
      | some obj =>
          if stripQuotes obj.etag ≠ eTag then .error .etagMismatch
          else .ok obj.body

/-- The record fields a successful record-API call can return; each
operation reads the fields it needs. -/
structure OnyxData where
  climb_id : String
  sample_id : String
  run_id : String
  identifier : String
deriving DecidableEq, Repr

/-- Outcome of one attempt of a record-API call, one constructor per
handler of the Python try block: success, `OnyxConnectionError`,
`OnyxServerError` / `OnyxConfigError`, `OnyxClientError`,
`OnyxRequestError` (with status and field messages), and any other
exception. -/
inductive OnyxAttempt where
  | success (data : OnyxData)
  | connError (msg : String)
  | serverError (msg : String)
  | clientError (msg : String)
  | requestError (status_code : Nat) (messages : List (String × List String))
  | otherExc (msg : String)
deriving DecidableEq, Repr

/-- Result of a record-API helper: the first element of the returned
Python tuple (success for `csv_create` and `onyx_identify`, failure for
`onyx_update`), the alert flag, the updated payload, and the sleeps the
call performed. -/
structure OnyxOpResult where
  first : Bool
  alert : Bool
  payload : UtilsPayload
  sleeps : List Nat
deriving DecidableEq, Repr

/-- The connection-failure message the helpers format. -/
def connMsg (n : Nat) (e : String) : String :=
  "Failed to connect to Onyx " ++ toString n ++ " times with error: " ++ e

/-- Error recording of `csv_create`: test submissions write under
`onyx_test_create_errors`, real ones under `onyx_create_errors`, both
at key `onyx_errors`. -/
def csvCreateRecordErr (test : Bool) (p : UtilsPayload) (msg : String) :
    UtilsPayload :=
  if test then
    let e := appendFieldMsg p.onyx_test_create_errors "onyx_errors" msg
    { p with onyx_test_create_errors := e }
  else
    let e := appendFieldMsg p.onyx_create_errors "onyx_errors" msg
    { p with onyx_create_errors := e }

/-- The branch after the `csv_create` while loop (lines 348-362). -/
def csvCreateNeverReached (test : Bool) (payload : UtilsPayload) :
    OnyxOpResult :=
  ⟨false, true,
    csvCreateRecordErr test payload
      "End of csv_create func reached, this should never happen!", []⟩

/-- The `while reconnect_count <= 3` loop of `csv_create` (`utils.py`
lines 190-362).  Each attempt first evaluates
`s3_to_fh(files[".csv"].uri, files[".csv"].etag)` — an etag mismatch is
caught and returned without alert, any other fetch failure (or a missing
`.csv` entry) lands in the catch-all handler — and then performs the
client call, whose outcome the oracle `att` gives per attempt index.
Connection errors sleep 3 seconds and retry while `reconnect_count < 3`.
The gas argument only bounds the recursion; the wrapper passes enough
for the loop to exit through its own condition. -/
def csv_createIter (store : S3Store) (test : Bool)
    (att : Nat → OnyxAttempt)
    (checkPub : UtilsPayload → Bool × Bool × UtilsPayload)
    (payload : UtilsPayload) : Nat → Nat → OnyxOpResult
  | 0, _ => csvCreateNeverReached test payload
  | gas + 1, count =>
      if count ≤ 3 then
        match alistLookup payload.files ".csv" with
        | none =>
            ⟨false, true,
              csvCreateRecordErr test payload
                "Unhandled csv_create error: KeyError", []⟩
        | some fref =>
            match s3_to_fh store fref.uri fref.etag with
            | .error .etagMismatch =>
                ⟨false, false,
                  csvCreateRecordErr test payload
                    ("CSV appears to have been modified after upload for artifact: "
                      ++ payload.artifact), []⟩
            | .error .otherError =>
                ⟨false, true,
                  csvCreateRecordErr test payload
                    "Unhandled csv_create error: fetch failure", []⟩
            | .ok _ =>
                match att count with
                | .success data =>
                    if !test then
                      let p2 := { payload with
                        climb_id := data.climb_id
                        climb_sample_id := data.sample_id
                        climb_run_id := data.run_id }
                      ⟨true, false, p2, []⟩
                    else ⟨true, false, payload, []⟩
                | .connError e =>
                    if count < 3 then
                      let r := csv_createIter store test att checkPub payload
                        gas (count + 1)
                      { r with sleeps := 3 :: r.sleeps }
                    else
                      ⟨false, true,
                        csvCreateRecordErr test payload (connMsg count e), []⟩
                | .serverError e =>
                    ⟨false, true,
                      csvCreateRecordErr test payload
                        ("Unhandled csv_create Onyx error: " ++ e), []⟩
                | .clientError e =>
                    ⟨false, false, csvCreateRecordErr test payload e, []⟩
                | .requestError _ msgs =>
                    if test then
                      let e := mergeFieldMsgs payload.onyx_test_create_errors
                        msgs
                      ⟨false, false,
                        { payload with onyx_test_create_errors := e }, []⟩
                    else
                      let cp := checkPub payload
                      if cp.2.1 then ⟨false, true, cp.2.2, []⟩
                      else if cp.1 then
                        let e := mergeFieldMsgs cp.2.2.onyx_create_errors msgs
                        ⟨false, cp.2.1,
                          { cp.2.2 with onyx_create_errors := e }, []⟩
                      else ⟨true, cp.2.1, cp.2.2, []⟩
                | .otherExc e =>
                    ⟨false, true,
                      csvCreateRecordErr test payload
                        ("Unhandled csv_create error: " ++ e), []⟩
      else csvCreateNeverReached test payload

/-- `csv_create` (`utils.py` lines 169-362): run the retry loop from
`reconnect_count = 0`. -/
def csv_create (store : S3Store) (test : Bool) (att : Nat → OnyxAttempt)
    (checkPub : UtilsPayload → Bool × Bool × UtilsPayload)
    (payload : UtilsPayload) : OnyxOpResult :=
  csv_createIter store test att checkPub payload 5 0

/-- `payload.setdefault("onyx_errors", {})` followed by an append under
key `onyx_errors`. -/
def onyxErrAppend (p : UtilsPayload) (msg : String) : UtilsPayload :=
  { p with onyx_errors := appendFieldMsg p.onyx_errors "onyx_errors" msg }

/-- The retry loop of `onyx_identify` (`utils.py` lines 461-536) for a
valid identity field.  On success the climbed identifier is stored under
`climb_<field>`; connection errors sleep 3 seconds and retry while
`reconnect_count < 3`; a request error with status 404 returns quietly
without alert; every other failure appends to `onyx_errors` with alert.
Falling out of the loop is unreachable; the gas-zero value mirrors the
Python `None` fallthrough as a failure. -/
def onyx_identifyIter (att : Nat → OnyxAttempt) (field : String)
    (payload : UtilsPayload) : Nat → Nat → OnyxOpResult
  | 0, _ => ⟨false, true, payload, []⟩
  | gas + 1, count =>
      if count ≤ 3 then
        match att count with
        | .success data =>
            if field = "sample_id" then
              ⟨true, false,
                { payload with climb_sample_id := data.identifier }, []⟩
            else
              ⟨true, false,
                { payload with climb_run_id := data.identifier }, []⟩
        | .connError e =>
            if count < 3 then
              let r := onyx_identifyIter att field payload gas (count + 1)
              { r with sleeps := 3 :: r.sleeps }
            else ⟨false, true, onyxErrAppend payload (connMsg count e), []⟩
        | .serverError e =>
            ⟨false, true,
              onyxErrAppend payload ("Unhandled Onyx identify error: " ++ e),
              []⟩
        | .clientError e =>
            ⟨false, true,
              onyxErrAppend payload
                ("Onyx identify failed for artifact: " ++ payload.artifact
                  ++ ". Error: " ++ e), []⟩
        | .requestError status _msgs =>
            if status = 404 then ⟨false, false, payload, []⟩
            else
              ⟨false, true,
                onyxErrAppend payload
                  ("Onyx identify failed for artifact: " ++ payload.artifact),
                []⟩
        | .otherExc e =>
            ⟨false, true,
              onyxErrAppend payload ("Unhandled onyx_identify error: " ++ e),
              []⟩
      else ⟨false, true, payload, []⟩

/-- `onyx_identify` (`utils.py` lines 452-536): reject identity fields
other than `sample_id` / `run_id`, otherwise run the retry loop. -/
def onyx_identify (att : Nat → OnyxAttempt) (field : String)
    (payload : UtilsPayload) : OnyxOpResult :=
  if field ≠ "sample_id" ∧ field ≠ "run_id" then ⟨false, true, payload, []⟩
  else onyx_identifyIter att field payload 5 0

/-- Append under `onyx_update_errors` at key `onyx_errors`. -/
def updateErrAppend (p : UtilsPayload) (msg : String) : UtilsPayload :=
  let e := appendFieldMsg p.onyx_update_errors "onyx_errors" msg
  { p with onyx_update_errors := e }

/-- The branch after the `onyx_update` while loop (lines 957-963). -/
def onyxUpdateNeverReached (payload : UtilsPayload) : OnyxOpResult :=
  ⟨true, true,
    updateErrAppend payload
      "End of onyx_update func reached, this should never happen!", []⟩

/-- The retry loop of `onyx_update` (`utils.py` lines 886-963).  The
first tuple element is the failure flag.  Connection errors sleep
5 seconds — not 3 — and retry while `reconnect_count < 3`; the final
connection failure appends the raw error to the top-level `onyx_errors`
map; the other handlers record under `onyx_update_errors`. -/
def onyx_updateIter (att : Nat → OnyxAttempt) (payload : UtilsPayload) :
    Nat → Nat → OnyxOpResult
  | 0, _ => onyxUpdateNeverReached payload
  | gas + 1, count =>
      if count ≤ 3 then
        match att count with
        | .success _ => ⟨false, false, payload, []⟩
        | .connError e =>
            if count < 3 then
              let r := onyx_updateIter att payload gas (count + 1)
              { r with sleeps := 5 :: r.sleeps }
            else ⟨true, true, onyxErrAppend payload e, []⟩
        | .serverError e =>
            ⟨true, true, updateErrAppend payload e, []⟩
        | .clientError e =>
            ⟨true, false, updateErrAppend payload e, []⟩
        | .requestError _ msgs =>
            let e := mergeFieldMsgs payload.onyx_update_errors msgs
            ⟨true, false, { payload with onyx_update_errors := e }, []⟩
        | .otherExc e =>
            ⟨true, true,
              updateErrAppend payload ("Unhandled onyx_update error: " ++ e),
              []⟩
      else onyxUpdateNeverReached payload

/-- `onyx_update` (`utils.py` lines 869-963). -/
def onyx_update (att : Nat → OnyxAttempt) (payload : UtilsPayload) :
    OnyxOpResult :=
  onyx_updateIter att payload 5 0

/-! ## Pathsafe project validator (`roz_scripts/pathsafe/pathsafe_ingest.py`)

The `validate` worker runs the assembly pipeline, parses its trace,
creates the record, uploads the assembly, submits to Pathogenwatch, and
only then unsuppresses the record, sending a result message and cleaning
up at every terminal.  The outcome of each external step is an
environment input; the embedding returns the return value of `validate`
together with the ordered trace of its externally visible actions. -/

/-- The fields of the inbound message that `validate` branches on. -/
structure PathsafeMsg where
  project : String
  uuid : String
  site : String
  onyx_test_create_status : Bool
  validate : Bool
deriving DecidableEq, Repr

/-- Outcomes of the external steps of one `validate` run: the pipeline
return code and timeout flag, the trace parse verdict, and the failure
flags of the record create, the assembly upload, the Pathogenwatch
submission and the unsuppress call. -/
structure PathsafeEnv where
  rc : Int
  timeout : Bool
  traceFail : Bool
  submissionFail : Bool
  s3Fail : Bool
  pathogenwatchFail : Bool
  unsuppressFail : Bool
deriving DecidableEq, Repr

/-- Externally visible actions of a `validate` run, in program order. -/
inductive PAction where
  | runPipeline
  | onyxCreateSuppressed
  | s3UploadAssembly
  | pathogenwatchSubmit
  | onyxUnsuppress (ok : Bool)
  | sendResult
  | sendNewArtifact
  | cleanup
deriving DecidableEq, Repr

/-- Modelled from the spec: `onyx_submission` is imported from
`roz_scripts.utils.utils` but is not present in the checked sources.
Per the spec, records are created *suppressed* (the sibling `csv_create`
in the checked sources passes `is_published: False` on every create);
the helper returns a failure flag and its only record-API effect is the
suppressed create attempt. -/
def onyx_submission (env : PathsafeEnv) : Bool × List PAction :=
  (env.submissionFail, [.onyxCreateSuppressed])

/-- Modelled from the spec: `onyx_unsuppress` is imported from
`roz_scripts.utils.utils` but is not present in the checked sources.
Per the spec it attempts to unsuppress the created record, returning a
failure flag; the record becomes published exactly when the attempt
succeeds. -/
def onyx_unsuppress (env : PathsafeEnv) : Bool × List PAction :=
  (env.unsuppressFail, [.onyxUnsuppress (!env.unsuppressFail)])

/-- `validate` (`pathsafe_ingest.py` lines 221-412): the return value
and the ordered action trace.  Non-pathsafe messages are ignored; a
failed or skipped ingest test immediately reports; then each step runs
in order with a report-and-cleanup terminal on failure, and only the
full success path reaches the unsuppress and the `new_artifact`
notification.  The `onyx_update` calls inside `assembly_to_s3` and
`pathogenwatch_submission` never change the published state and are
subsumed in those steps. -/
def validate (m : PathsafeMsg) (env : PathsafeEnv) : Bool × List PAction :=
  if m.project ≠ "pathsafetest" then (false, [])
  else if !m.onyx_test_create_status || !m.validate then (false, [.sendResult])
  else
    let acts0 := [PAction.runPipeline]
    if env.timeout then (false, acts0 ++ [.sendResult, .cleanup])
    else if env.rc ≠ 0 then (false, acts0 ++ [.sendResult, .cleanup])
    else if env.traceFail then (false, acts0 ++ [.sendResult, .cleanup])
    else
      let sub := onyx_submission env
      let acts1 := acts0 ++ sub.2
      if sub.1 then (false, acts1 ++ [.sendResult, .cleanup])
      else
        let acts2 := acts1 ++ [PAction.s3UploadAssembly]
        if env.s3Fail then (false, acts2 ++ [.sendResult, .cleanup])
        else
          let acts3 := acts2 ++ [PAction.pathogenwatchSubmit]
          if env.pathogenwatchFail then
            (false, acts3 ++ [.sendResult, .cleanup])
          else
            let uns := onyx_unsuppress env
            let acts4 := acts3 ++ uns.2
            if uns.1 then (false, acts4 ++ [.sendResult, .cleanup])
            else (true, acts4 ++ [.sendNewArtifact, .sendResult, .cleanup])

/-- State of the Onyx record as the action trace unfolds. -/
inductive RecState where
  | absent
  | suppressed
  | published
deriving DecidableEq, Repr

/-- Effect of one action on the record state: the create reaches
`suppressed`, a successful unsuppress reaches `published`, everything
else leaves the state alone. -/
def recStep (s : RecState) : PAction → RecState
  | .onyxCreateSuppressed => .suppressed
  | .onyxUnsuppress true => .published
  | _ => s

/-- Record state after running an action trace from no record. -/
def recordStateAfter (acts : List PAction) : RecState :=
  acts.foldl recStep .absent

/-- The trace leaves the record published. -/
def recPublished (acts : List PAction) : Bool :=
  recordStateAfter acts == .published

/-- A successful unsuppress appears only after a suppressed create:
scan the trace tracking whether the create has happened. -/
def unsuppressAfterCreate (acts : List PAction) : Bool :=
  (acts.foldl
    (fun st a =>
      match a with
      | .onyxCreateSuppressed => (true, st.2)
      | .onyxUnsuppress true => (st.1, st.2 && st.1)
      | _ => st)
    (false, true)).2

/-! ## Claim-side definitions

Definitions written from the wording of the specification, to be
compared against the embedded source behaviour. -/

/-- The character policy of the spec, `^[A-Za-z0-9_-]+$`: one or more
allowed characters — unlike the star pattern compiled by
`valid_character_checks`. -/
def charPatternPlus (s : String) : Bool :=
  !s.isEmpty && s.toList.all allowedChar

/-- The template fields the ingest handler never writes keep their
default values in any payload it sends. -/
def untouchedTemplateFields : IngestOutcome → Bool
  | .sent p =>
      (p.cid == ingestPayloadTemplate.cid) &&
        (p.created == ingestPayloadTemplate.created) &&
        (p.ingested == ingestPayloadTemplate.ingested) &&
        (p.onyx_status_code == ingestPayloadTemplate.onyx_status_code) &&
        (p.onyx_errors == ingestPayloadTemplate.onyx_errors) &&
        (p.onyx_create_status == ingestPayloadTemplate.onyx_create_status) &&
        (p.ingest_errors == ingestPayloadTemplate.ingest_errors)
  | _ => true

/-- Extension list of an emitted match payload. -/
def payloadExts (pl : MatchPayload) : List String :=
  pl.files.map Prod.fst

/-! ## Concrete example inputs used by closed theorems -/

/-- Two matcher scans: a complete triplet for artifact `sampleA.runB`,
then one unrelated new file, which re-triggers the matching pass. -/
def scansDup : List (List FileEntry) :=
  [[⟨"/inbound/sampleA.runB.csv", "h1"⟩,
    ⟨"/inbound/sampleA.runB.fasta", "h2"⟩,
    ⟨"/inbound/sampleA.runB.bam", "h3"⟩],
   [⟨"/inbound/sampleC.runD.csv", "h4"⟩]]

/-- The match payload the matcher generates for the triplet above. -/
def payloadDup : MatchPayload :=
  { payload_version := 1, uploader := "BIRM", artifact := "sampleA.runB",
    files := [("csv", ⟨"/inbound/sampleA.runB.csv", "h1"⟩),
              ("fasta", ⟨"/inbound/sampleA.runB.fasta", "h2"⟩),
              ("bam", ⟨"/inbound/sampleA.runB.bam", "h3"⟩)] }

/-- A complete working triplet for artifact `sampleA.runB`. -/
def tripIdent : Triplet :=
  [("csv", ⟨"/inbound/sampleA.runB.csv", "h1"⟩),
   ("fasta", ⟨"/inbound/sampleA.runB.fasta", "h2"⟩),
   ("bam", ⟨"/inbound/sampleA.runB.bam", "h3"⟩)]

/-- A previously matched record carrying the same three hashes. -/
def prevIdent : List (String × TripletHashes) :=
  [("sampleA.runB", { csv := "h1", fasta := "h2", bam := "h3" })]

/-- A matched message as the ingest loop reads it. -/
def msgIngest : MatchedMessage :=
  { artifact := "proj.sample.run", sample_id := "sample", run_name := "run",
    project := "proj", platform := "ont", site := "birm",
    files := [(".csv", ⟨"/inbound/proj.sample.run.csv", "e1"⟩)],
    local_paths := [(".csv", "/roz/artifacts/proj.sample.run.csv")] }

/-- A metadata CSV row agreeing with the message. -/
def rowIngest : List (String × String) :=
  [("sample_id", "sample"), ("run_name", "run")]

/-- Ingest environment whose test create returned 403. -/
def envIngest403 : IngestEnv :=
  { csvCreate := .responses [⟨403, [], ""⟩],
    csvRow := some rowIngest, now := 11 }

/-- Ingest environment whose test create returned 400 with a field
message. -/
def envIngest400 : IngestEnv :=
  { csvCreate := .responses
      [⟨400, [("sample_id", ["This field is required."])], ""⟩],
    csvRow := some rowIngest, now := 12 }

/-- A validation payload for the utils helpers. -/
def basePayload : UtilsPayload :=
  { artifact := "proj.sample.run", uuid := "uuid-1", project := "proj",
    site := "birm", sample_id := "sample", run_id := "run", climb_id := "",
    climb_sample_id := "", climb_run_id := "",
    files := [(".csv", ⟨"s3://bucket/proj.sample.run.ont.csv", "etagA"⟩)],
    onyx_test_create_errors := [], onyx_create_errors := [],
    onyx_errors := [], onyx_update_errors := [] }

/-- A payload whose `sample_id` is empty: it matches the compiled star
pattern but not the one-or-more policy of the spec. -/
def emptyIdPayload : UtilsPayload :=
  { basePayload with sample_id := "", run_id := "run-1" }

/-- An object store holding the metadata CSV of `basePayload` with a
matching (quoted) etag. -/
def storeMatch : S3Store :=
  [(("bucket", "proj.sample.run.ont.csv"),
    { etag := "\"etagA\"", body := "sample_id,run_id\nsample,run\n" })]

/-- The same store after the object was rewritten: a different etag. -/
def storeRewritten : S3Store :=
  [(("bucket", "proj.sample.run.ont.csv"),
    { etag := "\"etagB\"", body := "sample_id,run_id\nother,run\n" })]

/-- A record-API oracle that always raises a connection error. -/
def alwaysConnError : Nat → OnyxAttempt :=
  fun _ => .connError "connection refused"

/-- A record-API oracle that always succeeds. -/
def alwaysSuccess : Nat → OnyxAttempt :=
  fun _ => .success ⟨"C-1", "S-1", "R-1", "I-1"⟩

/-- A trivial stand-in for `check_artifact_published`, unused on the
paths the theorems exercise. -/
def checkPubNone : UtilsPayload → Bool × Bool × UtilsPayload :=
  fun p => (false, false, p)

/-- A 422 test create response with one field message. -/
def respIngest422 : OnyxResponse :=
  ⟨422, [("run_id", ["Select a valid choice."])], ""⟩

/-- Ingest environment whose test create returned the 422 response. -/
def envIngest422 : IngestEnv :=
  { csvCreate := .responses [respIngest422], csvRow := some rowIngest,
    now := 13 }

/-- A payload whose `run_id` contains a character outside the policy
class. -/
def badIdPayload : UtilsPayload :=
  { basePayload with sample_id := "ok-sample", run_id := "bad!run" }

/-! ## Association-list lemmas -/

theorem alistLookup_insert_self {κ α : Type} [DecidableEq κ]
    (m : List (κ × α)) (k : κ) (v : α) :
    alistLookup (alistInsert m k v) k = some v := by
  induction m with
  | nil => simp [alistInsert, alistLookup]
  | cons p rest ih =>
      obtain ⟨k2, w⟩ := p
      by_cases h : k2 = k
      · simp [alistInsert, alistLookup, h]
      · simp [alistInsert, alistLookup, h, ih]

theorem alistLookup_insert_other {κ α : Type} [DecidableEq κ]
    (m : List (κ × α)) (k k2 : κ) (v : α) (hne : k2 ≠ k) :
    alistLookup (alistInsert m k v) k2 = alistLookup m k2 := by
  have hkk2 : ¬ k = k2 := fun h => hne h.symm
  induction m with
  | nil => simp [alistInsert, alistLookup, hkk2]
  | cons p rest ih =>
      obtain ⟨k3, w⟩ := p
      by_cases h : k3 = k
      · subst h
        simp [alistInsert, alistLookup, hkk2]
      · simp [alistInsert, alistLookup, h, ih]

theorem alistLookup_append_of_none {κ α : Type} [DecidableEq κ]
    (m l : List (κ × α)) (k : κ) (h : alistLookup m k = none) :
    alistLookup (m ++ l) k = alistLookup l k := by
  induction m with
  | nil => simp
  | cons p rest ih =>
      obtain ⟨k2, w⟩ := p
      by_cases h2 : k2 = k
      · simp [alistLookup, h2] at h
      · simp [alistLookup, h2] at h ⊢
        exact ih h

theorem appendFieldMsg_mem_self (m : List (String × List String))
    (k : String) (msg : String) :
    ∃ msgs, alistLookup (appendFieldMsg m k msg) k = some msgs ∧
      msg ∈ msgs := by
  unfold appendFieldMsg
  cases h : alistLookup m k with
  | some msgs =>
      exact ⟨msgs ++ [msg], alistLookup_insert_self m k (msgs ++ [msg]),
        by simp⟩
  | none =>
      refine ⟨[msg], ?_, by simp⟩
      rw [alistLookup_append_of_none m _ k h]
      simp [alistLookup]

theorem alistLookup_append_single_other {κ α : Type} [DecidableEq κ]
    (m : List (κ × α)) (k k2 : κ) (x : α) (hne : k2 ≠ k) :
    alistLookup (m ++ [(k, x)]) k2 = alistLookup m k2 := by
  have hkk2 : ¬ k = k2 := fun h => hne h.symm
  induction m with
  | nil => simp [alistLookup, hkk2]
  | cons p rest ih =>
      obtain ⟨k3, w⟩ := p
      by_cases h : k3 = k2 <;> simp [alistLookup, h, ih]

theorem appendFieldMsg_lookup_other (m : List (String × List String))
    (k k2 : String) (msg : String) (hne : k2 ≠ k) :
    alistLookup (appendFieldMsg m k msg) k2 = alistLookup m k2 := by
  unfold appendFieldMsg
  cases h : alistLookup m k with
  | some msgs => exact alistLookup_insert_other m k k2 _ hne
  | none => exact alistLookup_append_single_other m k k2 _ hne

/-! ## Claim theorems -/

/-- C1: the claim states that the matcher emits at most one match
message per distinct (artifact key, etag-set) pair, that an identical
re-submission is suppressed, and that on dispatch the emitted etag-set
is recorded and the working record cleared.  The matching loop does
neither recording nor clearing (`triplet_matcher.py` lines 118-134 add
only *suppressed* artifacts to `to_delete` and never update
`previously_matched`), so the very next scan that sees any unrelated new
file re-emits the identical match: two events for `sampleA.runB` with
the same etag-set. -/
theorem C1_duplicate_match_emitted :
    matcherRun [] scansDup = [payloadDup, payloadDup] := by decide

/-- C2 counterexample: the claim states that every match message
produces exactly one outbound validation payload, including when the
record-API test create fails with any status.  A 403 response makes the
loop `continue` without sending (`roz/ingest.py` lines 185-189): zero
outbound messages. -/
theorem C2_counterexample_403_drops :
    ingestStep 1 msgIngest envIngest403 = .dropped ∧
      sentCount (ingestStep 1 msgIngest envIngest403) = 0 := by decide

/-- C3: records are created suppressed, and the record is published
(unsuppressed) exactly when the whole validator path — the pathsafe
gate, the pipeline, the trace parse, the record create, the assembly
upload, the Pathogenwatch submission and the unsuppress call itself —
succeeded; in particular no execution in which the create, the upload or
the downstream submission fails leaves the record published, and a
successful unsuppress only ever happens after the suppressed create. -/
theorem C3_record_published_only_on_full_success
    (m : PathsafeMsg) (env : PathsafeEnv) :
    recPublished (validate m env).2 =
      (decide (m.project = "pathsafetest") && m.onyx_test_create_status &&
        m.validate && !env.timeout && decide (env.rc = 0) && !env.traceFail &&
        !env.submissionFail && !env.s3Fail && !env.pathogenwatchFail &&
        !env.unsuppressFail) ∧
      unsuppressAfterCreate (validate m env).2 = true := by
  simp only [validate, onyx_submission, onyx_unsuppress]
  by_cases hp : m.project ≠ "pathsafetest"
  · rw [if_pos hp]
    simp [recPublished, recordStateAfter, recStep, unsuppressAfterCreate, hp]
  rw [if_neg hp]
  have hp2 : m.project = "pathsafetest" := not_not.mp hp
  cases hts : m.onyx_test_create_status
  · simp [recPublished, recordStateAfter, recStep, unsuppressAfterCreate,
      hts]
  cases hva : m.validate
  · simp [recPublished, recordStateAfter, recStep, unsuppressAfterCreate,
      hts, hva]
  rw [if_neg (by simp : ¬ (!true || !true) = true)]
  cases htm : env.timeout
  rw [if_neg (by simp : ¬ false = true)]
  by_cases hrc : env.rc ≠ 0
  · rw [if_pos hrc]
    simp [recPublished, recordStateAfter, recStep, unsuppressAfterCreate,
      hp2, hts, hva, hrc]
  rw [if_neg hrc]
  have hrc2 : env.rc = 0 := not_not.mp hrc
  cases htr : env.traceFail
  cases hsu : env.submissionFail
  cases hs3 : env.s3Fail
  cases hpw : env.pathogenwatchFail
  cases hun : env.unsuppressFail <;>
    simp [recPublished, recordStateAfter, recStep, unsuppressAfterCreate,
      hp2, hts, hva, htm, hrc2, htr, hsu, hs3, hpw, hun]
  all_goals
    simp [recPublished, recordStateAfter, recStep, unsuppressAfterCreate]

/-- C4 counterexample: the claim states that status 400, like 422,
records the per-field validation messages and forwards the payload.  The
code classifies 400 as `unknown` (`handle_status_code` has no 400 arm)
and drops the message without forwarding. -/
theorem C4_counterexample_400_dropped :
    handle_status_code 400 = (false, "unknown") ∧
      ingestStep 2 msgIngest envIngest400 = .dropped := by decide

/-- C5 counterexample: the claim states that object names follow a
five-component convention and that the artifact key is the first three
components.  The matching loop ignores any basename that does not split
into exactly three components — the five-component name of the claim is
never correlated at all — and for the three-component names it does
accept, the artifact key is the join of the first *two* components. -/
theorem C5_counterexample_five_components_ignored :
    (scanStep ⟨[], [], []⟩
        [⟨"/inbound/project.sample.run.ont.csv", "h9"⟩]).1.unmatched = [] ∧
      (scanStep ⟨[], [], []⟩ [⟨"/inbound/proj.samp.csv", "h8"⟩]).1.unmatched =
        [("proj.samp", [("csv", ⟨"/inbound/proj.samp.csv", "h8"⟩)])] := by
  decide

/-- C6 counterexample: the claim states the character check succeeds iff
both ids match `^[A-Za-z0-9_-]+$` (one or more characters).  The code
compiles `^[A-Za-z0-9_-]*$`: an empty `sample_id` violates the claimed
policy yet the check succeeds and records no error. -/
theorem C6_counterexample_empty_id_passes :
    charPatternPlus emptyIdPayload.sample_id = false ∧
      (valid_character_checks emptyIdPayload).1 = true ∧
      (valid_character_checks emptyIdPayload).2.2 = emptyIdPayload := by
  decide

/-- C8 counterexample: the claim states every record-API operation
(including update) retries connection errors with 3 seconds between
attempts.  `onyx_update` sleeps 5 seconds between its retries. -/
theorem C8_counterexample_update_sleeps_five :
    (onyx_update alwaysConnError basePayload).sleeps = [5, 5, 5] ∧
      [5, 5, 5] ≠ [3, 3, 3] := by decide

/-- C9 counterexample: the claim states a submission is dispatched iff
the set of observed extensions equals the required set.  A complete
triplet whose hashes all equal a previously matched etag-set is
suppressed and not dispatched, so completeness alone does not imply
dispatch. -/
theorem C9_counterexample_complete_but_suppressed :
    tripletComplete tripIdent = true ∧
      (matchPass prevIdent [("sampleA.runB", tripIdent)]).1 = [] := by decide

theorem parseFname_eq_some (fname a b c : String)
    (h : splitOnChar '.' fname = [a, b, c]) :
    parseFname fname = some (a ++ "." ++ b, c) := by
  unfold parseFname
  rw [h]

theorem parseFname_eq_none_of_len (fname : String)
    (h : (splitOnChar '.' fname).length ≠ 3) : parseFname fname = none := by
  unfold parseFname
  cases hs : splitOnChar '.' fname with
  | nil => rfl
  | cons a t1 =>
      cases t1 with
      | nil => rfl
      | cons b t2 =>
          cases t2 with
          | nil => rfl
          | cons c t3 =>
              cases t3 with
              | nil => rw [hs] at h; simp at h
              | cons d t4 => rfl

/-- C5 amended: a file is correlated by the matcher iff its basename
splits into exactly three dot-separated components; the artifact key is
then the join of the first *two* components and the file is recorded
under the third; a basename with any other number of components is
ignored and leaves the working state unchanged. -/
theorem C5_amended_artifact_key (un : List (String × Triplet))
    (f : FileEntry) :
    (∀ a b c, splitOnChar '.' (basename f.path) = [a, b, c] →
      ∃ trip, alistLookup (processFile un f) (a ++ "." ++ b) = some trip ∧
        alistLookup trip c = some f) ∧
    ((splitOnChar '.' (basename f.path)).length ≠ 3 →
      processFile un f = un) := by
  constructor
  · intro a b c h
    simp only [processFile, parseFname_eq_some _ _ _ _ h]
    cases hu : alistLookup un (a ++ "." ++ b) with
    | some trip =>
        exact ⟨alistInsert trip c f, alistLookup_insert_self un _ _,
          alistLookup_insert_self trip c f⟩
    | none =>
        refine ⟨[(c, f)], ?_, by simp [alistLookup]⟩
        rw [alistLookup_append_of_none un _ _ hu]
        simp [alistLookup]
  · intro h
    unfold processFile
    rw [parseFname_eq_none_of_len _ h]

/-- Closed instantiation of the C5 amendment: a three-component name is
keyed by its first two components, and the five-component convention of
the spec is ignored. -/
theorem C5_amended_artifact_key_witness :
    (∃ trip,
      alistLookup (processFile [] ⟨"/inbound/sampleE.runF.csv", "h7"⟩)
          "sampleE.runF" = some trip ∧
        alistLookup trip "csv" = some ⟨"/inbound/sampleE.runF.csv", "h7"⟩) ∧
      processFile [] ⟨"/inbound/proj.samp.run.ont.csv", "h6"⟩ = [] := by
  constructor
  · exact (C5_amended_artifact_key [] ⟨"/inbound/sampleE.runF.csv", "h7"⟩).1
      "sampleE" "runF" "csv" (by decide)
  · exact (C5_amended_artifact_key []
      ⟨"/inbound/proj.samp.run.ont.csv", "h6"⟩).2 (by decide)

/-- C6 amended: the character check succeeds iff both `sample_id` and
`run_id` match the star pattern `^[A-Za-z0-9_-]*$` (the empty string
passes); each violating field gets its character-class error appended
under its name; the check never alerts; and when both match, the
payload is returned unchanged. -/
theorem C6_amended_char_policy (p : UtilsPayload) :
    (valid_character_checks p).1 =
        (matchesCharClassStar p.sample_id && matchesCharClassStar p.run_id) ∧
    (valid_character_checks p).2.1 = false ∧
    (matchesCharClassStar p.sample_id = false →
      ∃ msgs,
        alistLookup (valid_character_checks p).2.2.onyx_test_create_errors
            "sample_id" = some msgs ∧ sampleIdCharMsg ∈ msgs) ∧
    (matchesCharClassStar p.run_id = false →
      ∃ msgs,
        alistLookup (valid_character_checks p).2.2.onyx_test_create_errors
            "run_id" = some msgs ∧ runIdCharMsg ∈ msgs) ∧
    (matchesCharClassStar p.sample_id = true →
      matchesCharClassStar p.run_id = true →
      (valid_character_checks p).2.2 = p) := by
  refine ⟨?_, ?_, ?_, ?_, ?_⟩
  · cases hs : matchesCharClassStar p.sample_id <;>
      cases hr : matchesCharClassStar p.run_id <;>
        simp [valid_character_checks, hs, hr]
  · cases hs : matchesCharClassStar p.sample_id <;>
      cases hr : matchesCharClassStar p.run_id <;>
        simp [valid_character_checks, hs, hr]
  · intro hs
    cases hr : matchesCharClassStar p.run_id
    · have herr : (valid_character_checks p).2.2.onyx_test_create_errors =
          appendFieldMsg
            (appendFieldMsg p.onyx_test_create_errors "sample_id"
              sampleIdCharMsg) "run_id" runIdCharMsg := by
        simp [valid_character_checks, hs, hr]
      rw [herr, appendFieldMsg_lookup_other _ "run_id" "sample_id" _
        (by decide)]
      exact appendFieldMsg_mem_self _ _ _
    · have herr : (valid_character_checks p).2.2.onyx_test_create_errors =
          appendFieldMsg p.onyx_test_create_errors "sample_id"
            sampleIdCharMsg := by
        simp [valid_character_checks, hs, hr]
      rw [herr]
      exact appendFieldMsg_mem_self _ _ _
  · intro hr
    cases hs : matchesCharClassStar p.sample_id
    · have herr : (valid_character_checks p).2.2.onyx_test_create_errors =
          appendFieldMsg
            (appendFieldMsg p.onyx_test_create_errors "sample_id"
              sampleIdCharMsg) "run_id" runIdCharMsg := by
        simp [valid_character_checks, hs, hr]
      rw [herr]
      exact appendFieldMsg_mem_self _ _ _
    · have herr : (valid_character_checks p).2.2.onyx_test_create_errors =
          appendFieldMsg p.onyx_test_create_errors "run_id" runIdCharMsg := by
        simp [valid_character_checks, hs, hr]
      rw [herr]
      exact appendFieldMsg_mem_self _ _ _
  · intro hs hr
    simp [valid_character_checks, hs, hr]

/-- Closed instantiation of the C6 amendment: a `run_id` containing `!`
fails the check with the character-class error recorded under
`run_id`. -/
theorem C6_amended_char_policy_witness :
    (valid_character_checks badIdPayload).1 = false ∧
    ∃ msgs,
      alistLookup
          (valid_character_checks badIdPayload).2.2.onyx_test_create_errors
          "run_id" = some msgs ∧ runIdCharMsg ∈ msgs := by
  refine ⟨?_, (C6_amended_char_policy badIdPayload).2.2.2.1 (by decide)⟩
  rw [(C6_amended_char_policy badIdPayload).1]
  decide

/-- C2 amended: the ingest loop publishes exactly one message for an
input iff the test create flagged a multiline CSV, or — with a readable
single-row metadata CSV carrying both name columns — returned 422, or
201 without an assigned cid; client exceptions, 403, 400 and every
other unlisted status, and assigned-cid successes are dropped with zero
outbound messages; no input ever yields two. -/
theorem C2_amended_send_characterisation (tag : Nat) (m : MatchedMessage)
    (env : IngestEnv) :
    sentCount (ingestStep tag m env) =
      if ingestSendsIff env then 1 else 0 := by
  obtain ⟨cc, csvRow, now⟩ := env
  cases cc with
  | clientExc msg => simp [ingestStep, ingestSendsIff, sentCount]
  | responses rs =>
      cases rs with
      | nil =>
          cases csvRow with
          | none => simp [ingestStep, ingestSendsIff, sentCount]
          | some row =>
              cases hsv : alistLookup row "sample_id" with
              | none =>
                  simp [ingestStep, ingestCsvStep, ingestStatusStep,
                    ingestSendsIff, hsv, sentCount]
              | some sv =>
                  cases hrv : alistLookup row "run_name" with
                  | none =>
                      simp [ingestStep, ingestCsvStep, ingestStatusStep,
                        ingestSendsIff, hsv, hrv, sentCount]
                  | some rv =>
                      simp [ingestStep, ingestCsvStep, ingestStatusStep,
                        ingestSendsIff, hsv, hrv, sentCount]
      | cons r rs2 =>
          cases rs2 with
          | cons r2 rs3 => simp [ingestStep, ingestSendsIff, sentCount]
          | nil =>
              cases csvRow with
              | none => simp [ingestStep, ingestSendsIff, sentCount]
              | some row =>
                  cases hsv : alistLookup row "sample_id" with
                  | none =>
                      simp [ingestStep, ingestCsvStep, ingestStatusStep,
                        ingestSendsIff, hsv, sentCount]
                  | some sv =>
                      cases hrv : alistLookup row "run_name" with
                      | none =>
                          simp [ingestStep, ingestCsvStep, ingestStatusStep,
                            ingestSendsIff, hsv, hrv, sentCount]
                      | some rv =>
                          by_cases h422 : r.status_code = 422
                          · simp [ingestStep, ingestCsvStep,
                              ingestStatusStep, handle_status_code,
                              ingestSendsIff, hsv, hrv, h422, sentCount]
                          · by_cases h403 : r.status_code = 403
                            · simp [ingestStep, ingestCsvStep,
                                ingestStatusStep, handle_status_code,
                                ingestSendsIff, hsv, hrv, h403, sentCount]
                            · by_cases h201 : r.status_code = 201
                              · by_cases hcid : r.data_cid = ""
                                · simp [ingestStep, ingestCsvStep,
                                    ingestStatusStep, handle_status_code,
                                    ingestSendsIff, hsv, hrv, h201, hcid,
                                    sentCount]
                                · simp [ingestStep, ingestCsvStep,
                                    ingestStatusStep, handle_status_code,
                                    ingestSendsIff, hsv, hrv, h201, hcid,
                                    sentCount]
                              · simp [ingestStep, ingestCsvStep,
                                  ingestStatusStep, handle_status_code,
                                  ingestSendsIff, hsv, hrv, h422, h403,
                                  h201, sentCount]

/-- C4 amended: the record-API test-create status codes are translated
as follows.  201 is a success: `onyx_test_create_status` is set and the
payload forwarded, unless the response carries an assigned cid, which
is dropped with an alert.  422 records the per-field response messages
in `onyx_test_create_errors` and still forwards, with
`onyx_test_create_status = false`.  403 is a permissions failure,
dropped with an alert.  400 — like every status outside
{201, 422, 403} — maps to `unknown` and is dropped with an alert. -/
theorem C4_amended_status_translation (tag : Nat) (m : MatchedMessage)
    (env : IngestEnv) (r : OnyxResponse) (row : List (String × String))
    (hcc : env.csvCreate = .responses [r])
    (hrow : env.csvRow = some row)
    (hsv : alistLookup row "sample_id" = some m.sample_id)
    (hrv : alistLookup row "run_name" = some m.run_name) :
    (handle_status_code 201 = (true, "success") ∧
      handle_status_code 422 = (false, "validation_failure") ∧
      handle_status_code 403 = (false, "perm_failure") ∧
      handle_status_code 400 = (false, "unknown")) ∧
    (r.status_code = 422 →
      ingestStep tag m env =
        .sent (fillAndSend tag m env.now (mergeFieldMsgs [] r.messages)
          false (some 422))) ∧
    (r.status_code = 403 → ingestStep tag m env = .dropped) ∧
    (r.status_code = 400 → ingestStep tag m env = .dropped) ∧
    (r.status_code = 201 → r.data_cid = "" →
      ingestStep tag m env =
        .sent (fillAndSend tag m env.now (mergeFieldMsgs [] r.messages)
          true (some 201))) := by
  refine ⟨⟨rfl, rfl, rfl, rfl⟩, ?_, ?_, ?_, ?_⟩
  · intro h422
    cases hm : r.messages with
    | nil =>
        simp [ingestStep, ingestCsvStep, ingestStatusStep,
          handle_status_code, hcc, hrow, hsv, hrv, h422, hm, mergeFieldMsgs]
    | cons fm rest =>
        simp [ingestStep, ingestCsvStep, ingestStatusStep,
          handle_status_code, hcc, hrow, hsv, hrv, h422, hm]
  · intro h403
    simp [ingestStep, ingestCsvStep, ingestStatusStep, handle_status_code,
      hcc, hrow, hsv, hrv, h403]
  · intro h400
    simp [ingestStep, ingestCsvStep, ingestStatusStep, handle_status_code,
      hcc, hrow, hsv, hrv, h400]
  · intro h201 hcid
    cases hm : r.messages with
    | nil =>
        simp [ingestStep, ingestCsvStep, ingestStatusStep,
          handle_status_code, hcc, hrow, hsv, hrv, h201, hcid, hm,
          mergeFieldMsgs]
    | cons fm rest =>
        simp [ingestStep, ingestCsvStep, ingestStatusStep,
          handle_status_code, hcc, hrow, hsv, hrv, h201, hcid, hm]

/-- Closed instantiation of the C4 amendment: the 422 response is
forwarded with its field message recorded and status false, and 400
maps to unknown. -/
theorem C4_amended_status_translation_witness :
    ingestStep 3 msgIngest envIngest422 =
      .sent (fillAndSend 3 msgIngest 13
        (mergeFieldMsgs [] respIngest422.messages) false (some 422)) ∧
    handle_status_code 400 = (false, "unknown") := by
  have h := C4_amended_status_translation 3 msgIngest envIngest422
    respIngest422 rowIngest rfl rfl rfl rfl
  exact ⟨h.2.1 rfl, h.1.2.2.2⟩

/-- C7: the metadata fetch during ingest raises the etag mismatch error
iff the etag the object store reports, quotes stripped, differs from the
etag recorded in the match message; `csv_create` then fails the message
with the mismatch recorded in the payload error map and no alert, and
when the etags agree the fetch returns the file body. -/
theorem C7_etag_verification (store : S3Store) (p : UtilsPayload)
    (att : Nat → OnyxAttempt)
    (checkPub : UtilsPayload → Bool × Bool × UtilsPayload)
    (fref : FileRef) (bk : String × String) (obj : S3Object)
    (hf : alistLookup p.files ".csv" = some fref)
    (hu : parseS3Uri fref.uri = some bk)
    (hs : alistLookup store bk = some obj) :
    (stripQuotes obj.etag ≠ fref.etag →
      s3_to_fh store fref.uri fref.etag = .error .etagMismatch ∧
      (csv_create store true att checkPub p).first = false ∧
      (csv_create store true att checkPub p).alert = false ∧
      ∃ msgs,
        alistLookup
            (csv_create store true att checkPub p).payload.onyx_test_create_errors
            "onyx_errors" = some msgs ∧
          ("CSV appears to have been modified after upload for artifact: "
            ++ p.artifact) ∈ msgs) ∧
    (stripQuotes obj.etag = fref.etag →
      s3_to_fh store fref.uri fref.etag = .ok obj.body) := by
  constructor
  · intro hne
    have hfetch : s3_to_fh store fref.uri fref.etag =
        .error .etagMismatch := by
      simp only [s3_to_fh, hu, hs]
      rw [if_pos hne]
    have hrun : csv_create store true att checkPub p =
        ⟨false, false,
          csvCreateRecordErr true p
            ("CSV appears to have been modified after upload for artifact: "
              ++ p.artifact), []⟩ := by
      simp [csv_create, csv_createIter, hf, hfetch]
    rw [hrun]
    refine ⟨hfetch, rfl, rfl, ?_⟩
    have hmem := appendFieldMsg_mem_self p.onyx_test_create_errors
      "onyx_errors"
      ("CSV appears to have been modified after upload for artifact: "
        ++ p.artifact)
    simpa [csvCreateRecordErr] using hmem
  · intro heq
    simp only [s3_to_fh, hu, hs]
    rw [if_neg (by simp [heq])]

/-- Closed instantiation of C7: with the object rewritten (etag changed)
the fetch raises the mismatch and `csv_create` fails without alert; with
the recorded etag the body is returned. -/
theorem C7_etag_verification_witness :
    s3_to_fh storeRewritten "s3://bucket/proj.sample.run.ont.csv" "etagA" =
        .error .etagMismatch ∧
      (csv_create storeRewritten true alwaysSuccess checkPubNone
          basePayload).alert = false ∧
      s3_to_fh storeMatch "s3://bucket/proj.sample.run.ont.csv" "etagA" =
        .ok "sample_id,run_id\nsample,run\n" := by
  have h1 := C7_etag_verification storeRewritten basePayload alwaysSuccess
    checkPubNone ⟨"s3://bucket/proj.sample.run.ont.csv", "etagA"⟩
    ("bucket", "proj.sample.run.ont.csv")
    ⟨"\"etagB\"", "sample_id,run_id\nother,run\n"⟩ rfl rfl rfl
  have h2 := C7_etag_verification storeMatch basePayload alwaysSuccess
    checkPubNone ⟨"s3://bucket/proj.sample.run.ont.csv", "etagA"⟩
    ("bucket", "proj.sample.run.ont.csv")
    ⟨"\"etagA\"", "sample_id,run_id\nsample,run\n"⟩ rfl rfl rfl
  exact ⟨(h1.1 (by decide)).1, (h1.1 (by decide)).2.2.1, h2.2 (by decide)⟩

/-- C8 amended: the record-API helpers retry connection errors in place
at most 3 times and, when the connection still fails, return their
failure value with the alert flag set and the connection error appended
to the payload error map; `csv_create` and `onyx_identify` wait
3 seconds between attempts, while `onyx_update` waits 5 seconds. -/
theorem C8_amended_retry_discipline (store : S3Store) (p : UtilsPayload)
    (checkPub : UtilsPayload → Bool × Bool × UtilsPayload) (e : String)
    (fref : FileRef) (bk : String × String) (obj : S3Object)
    (hf : alistLookup p.files ".csv" = some fref)
    (hu : parseS3Uri fref.uri = some bk)
    (hs : alistLookup store bk = some obj)
    (he : stripQuotes obj.etag = fref.etag) :
    ((csv_create store true (fun _ => .connError e) checkPub p).first =
        false ∧
      (csv_create store true (fun _ => .connError e) checkPub p).alert =
        true ∧
      (csv_create store true (fun _ => .connError e) checkPub p).sleeps =
        [3, 3, 3] ∧
      ∃ msgs,
        alistLookup
            (csv_create store true (fun _ => .connError e) checkPub
              p).payload.onyx_test_create_errors "onyx_errors" =
          some msgs ∧ connMsg 3 e ∈ msgs) ∧
    ((onyx_identify (fun _ => .connError e) "sample_id" p).first = false ∧
      (onyx_identify (fun _ => .connError e) "sample_id" p).alert = true ∧
      (onyx_identify (fun _ => .connError e) "sample_id" p).sleeps =
        [3, 3, 3] ∧
      ∃ msgs,
        alistLookup
            (onyx_identify (fun _ => .connError e) "sample_id"
              p).payload.onyx_errors "onyx_errors" = some msgs ∧
          connMsg 3 e ∈ msgs) ∧
    ((onyx_update (fun _ => .connError e) p).first = true ∧
      (onyx_update (fun _ => .connError e) p).alert = true ∧
      (onyx_update (fun _ => .connError e) p).sleeps = [5, 5, 5] ∧
      ∃ msgs,
        alistLookup (onyx_update (fun _ => .connError e) p).payload.onyx_errors
            "onyx_errors" = some msgs ∧ e ∈ msgs) := by
  have hfetch : s3_to_fh store fref.uri fref.etag = .ok obj.body := by
    simp only [s3_to_fh, hu, hs]
    rw [if_neg (by simp [he])]
  have hcsv : csv_create store true (fun _ => .connError e) checkPub p =
      ⟨false, true, csvCreateRecordErr true p (connMsg 3 e), [3, 3, 3]⟩ := by
    simp [csv_create, csv_createIter, hf, hfetch]
  have hid : onyx_identify (fun _ => .connError e) "sample_id" p =
      ⟨false, true, onyxErrAppend p (connMsg 3 e), [3, 3, 3]⟩ := by
    simp [onyx_identify, onyx_identifyIter]
  have hupd : onyx_update (fun _ => .connError e) p =
      ⟨true, true, onyxErrAppend p e, [5, 5, 5]⟩ := by
    simp [onyx_update, onyx_updateIter]
  rw [hcsv, hid, hupd]
  refine ⟨⟨rfl, rfl, rfl, ?_⟩, ⟨rfl, rfl, rfl, ?_⟩, rfl, rfl, rfl, ?_⟩
  · have hmem := appendFieldMsg_mem_self p.onyx_test_create_errors
      "onyx_errors" (connMsg 3 e)
    simpa [csvCreateRecordErr] using hmem
  · have hmem := appendFieldMsg_mem_self p.onyx_errors "onyx_errors"
      (connMsg 3 e)
    simpa [onyxErrAppend] using hmem
  · have hmem := appendFieldMsg_mem_self p.onyx_errors "onyx_errors" e
    simpa [onyxErrAppend] using hmem

/-- Closed instantiation of the C8 amendment: with a permanently failing
connection, `csv_create` and `onyx_identify` sleep 3 seconds three
times, `onyx_update` sleeps 5 seconds three times. -/
theorem C8_amended_retry_discipline_witness :
    (csv_create storeMatch true alwaysConnError checkPubNone
        basePayload).sleeps = [3, 3, 3] ∧
      (onyx_identify alwaysConnError "sample_id" basePayload).sleeps =
        [3, 3, 3] ∧
      (onyx_update alwaysConnError basePayload).sleeps = [5, 5, 5] := by
  have h := C8_amended_retry_discipline storeMatch basePayload checkPubNone
    "connection refused" ⟨"s3://bucket/proj.sample.run.ont.csv", "etagA"⟩
    ("bucket", "proj.sample.run.ont.csv")
    ⟨"\"etagA\"", "sample_id,run_id\nsample,run\n"⟩ rfl rfl rfl (by decide)
  exact ⟨h.1.2.2.1, h.2.1.2.2.1, h.2.2.2.2.1⟩

theorem generate_payload_exts (a : String) (t : Triplet) (u : String)
    (pl : MatchPayload) (h : generate_payload a t u = some pl) :
    payloadExts pl = ["csv", "fasta", "bam"] := by
  rcases hc : alistLookup t "csv" with _ | c
  · simp [generate_payload, hc] at h
  rcases hf : alistLookup t "fasta" with _ | f2
  · simp [generate_payload, hc, hf] at h
  rcases hb : alistLookup t "bam" with _ | b2
  · simp [generate_payload, hc, hf, hb] at h
  have h2 : some (⟨1, u, a, [("csv", c), ("fasta", f2), ("bam", b2)]⟩ :
      MatchPayload) = some pl := by
    rw [← h]
    simp [generate_payload, hc, hf, hb]
  cases h2
  rfl

theorem matchPass_emitted_eq (prev : List (String × TripletHashes))
    (un : List (String × Triplet)) :
    (matchPass prev un).1 = un.filterMap fun p =>
      if tripletComplete p.2 && !identicalToPrevious prev p.1 p.2 then
        generate_payload p.1 p.2 uploaderCode
      else none := by
  induction un with
  | nil => rfl
  | cons p rest ih =>
      simp only [matchPass, List.filterMap_cons]
      cases htc : tripletComplete p.2 with
      | false => simp [htc, ih]
      | true =>
          cases hid : identicalToPrevious prev p.1 p.2 with
          | true => simp [htc, hid, ih]
          | false =>
              cases hg : generate_payload p.1 p.2 uploaderCode with
              | none => simp [htc, hid, hg, ih]
              | some pl => simp [htc, hid, hg, ih]

theorem matchPass_all_exts (prev : List (String × TripletHashes))
    (un : List (String × Triplet)) :
    ((matchPass prev un).1.all fun pl =>
      payloadExts pl == ["csv", "fasta", "bam"]) = true := by
  rw [matchPass_emitted_eq, List.all_eq_true]
  intro pl hpl
  rw [List.mem_filterMap] at hpl
  obtain ⟨p, _, hfp⟩ := hpl
  by_cases hc :
      (tripletComplete p.2 && !identicalToPrevious prev p.1 p.2) = true
  · rw [if_pos hc] at hfp
    simp [generate_payload_exts p.1 p.2 uploaderCode pl hfp]
  · rw [if_neg hc] at hfp
    cases hfp

theorem scanStep_all_exts (st : MatcherState) (scan : List FileEntry) :
    (((scanStep st scan).2).all fun pl =>
      payloadExts pl == ["csv", "fasta", "bam"]) = true := by
  unfold scanStep
  dsimp only
  split
  · rfl
  · exact matchPass_all_exts st.prev _

theorem matcherRunAux_all_exts (scans : List (List FileEntry)) :
    ∀ st : MatcherState,
      ((matcherRunAux st scans).all fun pl =>
        payloadExts pl == ["csv", "fasta", "bam"]) = true := by
  induction scans with
  | nil => intro st; rfl
  | cons scan rest ih =>
      intro st
      simp [matcherRunAux, List.all_append, scanStep_all_exts st scan,
        ih (scanStep st scan).1]

/-- C9 amended: every match message the matcher emits over any run
carries exactly the required extension set csv, fasta, bam — one
path-and-hash entry per extension — and, within one matching pass, a
working record is dispatched iff its observed extension set equals the
required set *and* it is not an identical re-submission of a
previously matched etag-set. -/
theorem C9_amended_required_extensions
    (prev0 : List (String × TripletHashes)) (scans : List (List FileEntry))
    (prev : List (String × TripletHashes)) (un : List (String × Triplet)) :
    ((matcherRun prev0 scans).all fun pl =>
        payloadExts pl == ["csv", "fasta", "bam"]) = true ∧
      (matchPass prev un).1 = un.filterMap fun p =>
        if tripletComplete p.2 && !identicalToPrevious prev p.1 p.2 then
          generate_payload p.1 p.2 uploaderCode
        else none :=
  ⟨matcherRunAux_all_exts scans ⟨[], [], prev0⟩,
    matchPass_emitted_eq prev un⟩

theorem ingestLoop_eq_map (inputs : List (Nat × MatchedMessage × IngestEnv)) :
    ingestLoop inputs = inputs.map fun t => ingestStep t.1 t.2.1 t.2.2 := by
  have haux : ∀ (l : List (Nat × MatchedMessage × IngestEnv))
      (acc : List IngestOutcome),
      l.foldl (fun a t => a ++ [ingestStep t.1 t.2.1 t.2.2]) acc =
        acc ++ l.map fun t => ingestStep t.1 t.2.1 t.2.2 := by
    intro l
    induction l with
    | nil => intro acc; simp
    | cons t rest ih => intro acc; simp [ih]
  simpa [ingestLoop] using haux inputs []

theorem untouched_ingestStep (tag : Nat) (m : MatchedMessage)
    (env : IngestEnv) :
    untouchedTemplateFields (ingestStep tag m env) = true := by
  unfold ingestStep ingestCsvStep ingestStatusStep
  dsimp only
  repeat' split
  all_goals rfl

/-- C10: each match message is handled against a fresh deep copy of the
payload template: the i-th output of the ingest loop is a function of
the i-th input alone (no state crosses messages), and every template
field the handler never writes — cid, created, ingested,
onyx_status_code, onyx_errors, onyx_create_status, ingest_errors —
keeps its default value in every payload the loop sends. -/
theorem C10_fresh_template
    (inputs : List (Nat × MatchedMessage × IngestEnv)) (i : Nat) :
    (ingestLoop inputs)[i]? =
        (inputs[i]?).map (fun t => ingestStep t.1 t.2.1 t.2.2) ∧
      ((ingestLoop inputs).all untouchedTemplateFields) = true := by
  constructor
  · rw [ingestLoop_eq_map]
    simp
  · rw [ingestLoop_eq_map, List.all_eq_true]
    intro o ho
    rw [List.mem_map] at ho
    obtain ⟨t, _, rfl⟩ := ho
    exact untouched_ingestStep t.1 t.2.1 t.2.2

end RozSpec
